import Mathlib

/-!
Verification of the anomaly-detection core of the bedrock-monitoring-system
repository (src/python-scripts/bedrock_monitor.py), as a shallow embedding.

Python floats are idealized as real numbers; `statistics.mean` is the sum
divided by the length, `statistics.stdev` is the square root of the sample
variance (denominator `n - 1`).  The wall-clock `timestamp` field of an
anomaly record is outside the embedding and omitted; every other field of
the records built by `detect_anomalies` is carried.

External data is an explicit input: each hourly window carries the outcome
of the five CloudWatch fetches that `collect_usage_metrics` performs, and a
fetch outcome is either a list of datapoints or a failure (the `except`
branch of `_get_cloudwatch_metric`).
-/

namespace BedrockMonitor

/-- Outcome of one `cloudwatch_client.get_metric_statistics` call: either a
list of datapoint values, or an exception raised by the client. -/
inductive FetchResult where
  | ok (datapoints : List ℝ)
  | error

/-- `_get_cloudwatch_metric` (bedrock_monitor.py lines 147-159): returns the
datapoints on success and catches any exception, returning the empty list. -/
def getCloudwatchMetric : FetchResult → List ℝ
  | .ok datapoints => datapoints
  | .error => []

/-- The five fetches that `collect_usage_metrics` performs for one time
window: Invocations, Errors, InputTokens, OutputTokens (Sum) and
Duration (Average). -/
structure WindowFetch where
  invocations : FetchResult
  errors : FetchResult
  inputTokens : FetchResult
  outputTokens : FetchResult
  duration : FetchResult

/-- `statistics.mean`: sum divided by length. -/
noncomputable def listMean (l : List ℝ) : ℝ := l.sum / l.length

/-- Sample variance (denominator `n - 1`), as used by `statistics.stdev`. -/
noncomputable def sampleVariance (l : List ℝ) : ℝ :=
  (l.map (fun x => (x - listMean l) ^ 2)).sum / ((l.length : ℝ) - 1)

/-- `statistics.stdev`: square root of the sample variance. -/
noncomputable def sampleStdev (l : List ℝ) : ℝ := Real.sqrt (sampleVariance l)

/-- The metrics dictionary built by `collect_usage_metrics`
(bedrock_monitor.py lines 59-124).  The per-model/per-hour breakdown maps
are not used by any claim and are omitted. -/
structure UsageMetrics where
  total_invocations : ℝ
  total_errors : ℝ
  total_input_tokens : ℝ
  total_output_tokens : ℝ
  avg_duration : ℝ
  success_rate : ℝ

/-- `collect_usage_metrics` (lines 59-124): sums the datapoints of each
metric; `avg_duration` is the mean of the Duration datapoints when there are
any; `success_rate` is `(invocations - errors) / invocations * 100` when
`total_invocations > 0` and `0` otherwise (lines 112-119). -/
noncomputable def collectUsageMetrics (w : WindowFetch) : UsageMetrics :=
  let inv := (getCloudwatchMetric w.invocations).sum
  let err := (getCloudwatchMetric w.errors).sum
  { total_invocations := inv
    total_errors := err
    total_input_tokens := (getCloudwatchMetric w.inputTokens).sum
    total_output_tokens := (getCloudwatchMetric w.outputTokens).sum
    avg_duration :=
      if getCloudwatchMetric w.duration ≠ [] then
        listMean (getCloudwatchMetric w.duration)
      else 0
    success_rate := if inv > 0 then (inv - err) / inv * 100 else 0 }

/-- An anomaly record as built by `detect_anomalies` (lines 269-276 and
299-306), minus the wall-clock `timestamp` field. -/
structure Anomaly where
  type : String
  current_value : ℝ
  threshold : ℝ
  baseline_mean : ℝ
  severity : String

/-- The `baseline_metrics` list (lines 246-252): the `total_invocations`
of every hourly window of the 7-day range, one entry per window, appended
unconditionally. -/
noncomputable def baselineInvocations (windows : List WindowFetch) : List ℝ :=
  windows.map (fun w => (collectUsageMetrics w).total_invocations)

/-- `threshold = baseline_mean + threshold_multiplier * baseline_stdev`
(lines 259-261). -/
noncomputable def usageThreshold (windows : List WindowFetch) (m : ℝ) : ℝ :=
  listMean (baselineInvocations windows) + m * sampleStdev (baselineInvocations windows)

/-- `current_error_rate = total_errors / total_invocations * 100`
(line 280). -/
noncomputable def currentErrorRate (cur : UsageMetrics) : ℝ :=
  cur.total_errors / cur.total_invocations * 100

/-- The `baseline_error_rates` list (lines 281-291): the loop runs while
`current_time < end_time - 1 hour`, i.e. over every window but the last,
and keeps `errors / invocations * 100` only for windows whose
`total_invocations > 0`. -/
noncomputable def errorRateBaseline (windows : List WindowFetch) : List ℝ :=
  windows.dropLast.filterMap (fun w =>
    let mtr := collectUsageMetrics w
    if mtr.total_invocations > 0 then
      some (mtr.total_errors / mtr.total_invocations * 100)
    else none)

/-- `baseline_error_stdev` (line 295): sample stdev when the error-rate
baseline has more than one point, else `0`. -/
noncomputable def errorStdev (windows : List WindowFetch) : ℝ :=
  if (errorRateBaseline windows).length > 1 then sampleStdev (errorRateBaseline windows) else 0

/-- `error_threshold = baseline_error_mean + threshold_multiplier *
baseline_error_stdev` (line 296). -/
noncomputable def errorThreshold (windows : List WindowFetch) (m : ℝ) : ℝ :=
  listMean (errorRateBaseline windows) + m * errorStdev windows

/-- The `high_usage` branch of `detect_anomalies` (lines 268-276). -/
noncomputable def usageAnomalies (windows : List WindowFetch) (cur : UsageMetrics) (m : ℝ) :
    List Anomaly :=
  if cur.total_invocations > usageThreshold windows m then
    [{ type := "high_usage"
       current_value := cur.total_invocations
       threshold := usageThreshold windows m
       baseline_mean := listMean (baselineInvocations windows)
       severity :=
         if cur.total_invocations > usageThreshold windows m * 1.5 then "high" else "medium" }]
  else []

/-- The `high_error_rate` branch of `detect_anomalies` (lines 278-306):
guarded by `current_invocations > 0`, then by a non-empty error-rate
baseline, then by `rate > error_threshold and rate > 5`. -/
noncomputable def errorAnomalies (windows : List WindowFetch) (cur : UsageMetrics) (m : ℝ) :
    List Anomaly :=
  if cur.total_invocations > 0 then
    if errorRateBaseline windows ≠ [] then
      if currentErrorRate cur > errorThreshold windows m ∧ currentErrorRate cur > 5 then
        [{ type := "high_error_rate"
           current_value := currentErrorRate cur
           threshold := errorThreshold windows m
           baseline_mean := listMean (errorRateBaseline windows)
           severity :=
             if currentErrorRate cur > errorThreshold windows m * 1.5 then "high"
             else "medium" }]
      else []
    else []
  else []

/-- `detect_anomalies` (lines 228-311) on fixed fetched data: if the
baseline has fewer than 24 entries the run returns the (empty) anomaly
list (lines 254-256); otherwise the `high_usage` check runs, then the
`high_error_rate` check, each appending at most one record. -/
noncomputable def detectAnomalies (windows : List WindowFetch) (current : WindowFetch) (m : ℝ) :
    List Anomaly :=
  if (baselineInvocations windows).length < 24 then []
  else
    usageAnomalies windows (collectUsageMetrics current) m ++
      errorAnomalies windows (collectUsageMetrics current) m

/-- Outcome of one `sns_client.publish` call. -/
inductive PublishOutcome where
  | ok
  | error

/-- `send_alert` (lines 367-392), returning the boolean result together
with the number of publish calls made: with no configured topic ARN it
returns `False` without publishing; otherwise it publishes once and
returns `True` on success, `False` when the publish raises. -/
def sendAlert (snsTopicArn : Option String) (publish : PublishOutcome) : Bool × Nat :=
  match snsTopicArn with
  | none => (false, 0)
  | some _ =>
    match publish with
    | .ok => (true, 1)
    | .error => (false, 1)

/-- The alerting step of `lambda_handler` (lines 453-473): after detection,
an alert is sent when anomalies were found, and the response body reports
`anomalies_detected = len(anomalies)` regardless of the send outcome. -/
def lambdaAlertStep (anomalies : List Anomaly) (snsTopicArn : Option String)
    (publish : PublishOutcome) : Bool × Nat :=
  let sent :=
    match anomalies with
    | [] => false
    | _ :: _ => (sendAlert snsTopicArn publish).1
  (sent, anomalies.length)

/-! Evaluation helpers for constant baselines. -/

lemma listMean_replicate (n : ℕ) (a : ℝ) (h : n ≠ 0) :
    listMean (List.replicate n a) = a := by
  have hn : (n : ℝ) ≠ 0 := Nat.cast_ne_zero.mpr h
  simp [listMean, List.sum_replicate, nsmul_eq_mul]
  field_simp

lemma sampleVariance_replicate (n : ℕ) (a : ℝ) :
    sampleVariance (List.replicate n a) = 0 := by
  cases n with
  | zero => simp [sampleVariance, listMean]
  | succ k =>
      unfold sampleVariance
      rw [List.map_replicate, listMean_replicate _ _ (Nat.succ_ne_zero k)]
      simp

lemma sampleStdev_replicate (n : ℕ) (a : ℝ) :
    sampleStdev (List.replicate n a) = 0 := by
  rw [sampleStdev, sampleVariance_replicate, Real.sqrt_zero]

lemma filterMap_replicate_of_some {α β : Type} (f : α → Option β) (a : α) (b : β)
    (h : f a = some b) (n : ℕ) :
    (List.replicate n a).filterMap f = List.replicate n b := by
  induction n with
  | zero => rfl
  | succ k ih => simp [List.replicate_succ, List.filterMap_cons, h, ih]

/-! Concrete inputs used by witnesses and counterexamples. -/

/-- A window whose five fetches all succeed with no datapoints. -/
def emptyWindow : WindowFetch :=
  ⟨.ok [], .ok [], .ok [], .ok [], .ok []⟩

/-- A quiet baseline hour: 100 invocations, 0 errors. -/
noncomputable def w100e0 : WindowFetch :=
  ⟨.ok [100], .ok [0], .ok [], .ok [], .ok []⟩

/-- 24 identical quiet baseline hours. -/
noncomputable def exWindows : List WindowFetch := List.replicate 24 w100e0

/-- A current hour with 50 invocations and 25 errors (error rate 50%). -/
noncomputable def exCurrentBad : WindowFetch :=
  ⟨.ok [50], .ok [25], .ok [], .ok [], .ok []⟩

/-- A current hour with 50 invocations and no errors. -/
noncomputable def exCurrentQuiet : WindowFetch :=
  ⟨.ok [50], .ok [0], .ok [], .ok [], .ok []⟩

/-- A current hour with 50 invocations and 1 error (error rate 2%). -/
noncomputable def exCurrentLowErr : WindowFetch :=
  ⟨.ok [50], .ok [1], .ok [], .ok [], .ok []⟩

/-- A baseline hour of 10 invocations, 0 errors. -/
noncomputable def w10e0 : WindowFetch :=
  ⟨.ok [10], .ok [0], .ok [], .ok [], .ok []⟩

/-- The spec's `[10]*24` baseline. -/
noncomputable def exWindows10 : List WindowFetch := List.replicate 24 w10e0

/-- A current hour with 31 invocations, no errors. -/
noncomputable def exCurrent31 : WindowFetch :=
  ⟨.ok [31], .ok [0], .ok [], .ok [], .ok []⟩

/-- A window whose Invocations fetch raised (all others succeed empty). -/
def failWindow : WindowFetch :=
  ⟨.error, .ok [], .ok [], .ok [], .ok []⟩

/-- A 24-hour run whose last window's Invocations fetch failed. -/
noncomputable def exWindowsFail : List WindowFetch :=
  List.replicate 23 w100e0 ++ [failWindow]

lemma collect_w100e0 : collectUsageMetrics w100e0 =
    { total_invocations := 100, total_errors := 0, total_input_tokens := 0,
      total_output_tokens := 0, avg_duration := 0, success_rate := 100 } := by
  simp [collectUsageMetrics, w100e0, getCloudwatchMetric]

lemma collect_w10e0 : collectUsageMetrics w10e0 =
    { total_invocations := 10, total_errors := 0, total_input_tokens := 0,
      total_output_tokens := 0, avg_duration := 0, success_rate := 100 } := by
  simp [collectUsageMetrics, w10e0, getCloudwatchMetric]

lemma baselineInvocations_exWindows :
    baselineInvocations exWindows = List.replicate 24 (100 : ℝ) := by
  simp [baselineInvocations, exWindows, List.map_replicate, collect_w100e0]

lemma usageThreshold_exWindows (m : ℝ) : usageThreshold exWindows m = 100 := by
  rw [usageThreshold, baselineInvocations_exWindows,
    listMean_replicate 24 100 (by norm_num), sampleStdev_replicate]
  ring

lemma errorRateBaseline_exWindows :
    errorRateBaseline exWindows = List.replicate 23 (0 : ℝ) := by
  rw [errorRateBaseline, exWindows, List.dropLast_replicate]
  rw [show (24 - 1 : ℕ) = 23 from rfl]
  rw [filterMap_replicate_of_some _ w100e0 (0 : ℝ) (by rw [collect_w100e0]; norm_num)]

lemma errorThreshold_exWindows (m : ℝ) : errorThreshold exWindows m = 0 := by
  rw [errorThreshold, errorStdev, errorRateBaseline_exWindows,
    listMean_replicate 23 0 (by norm_num)]
  rw [if_pos (by simp), sampleStdev_replicate]
  ring

/-- A current hour with 10 invocations, no errors. -/
noncomputable def exCurrent10 : WindowFetch :=
  ⟨.ok [10], .ok [0], .ok [], .ok [], .ok []⟩

lemma collect_exCurrent31 : collectUsageMetrics exCurrent31 =
    { total_invocations := 31, total_errors := 0, total_input_tokens := 0,
      total_output_tokens := 0, avg_duration := 0, success_rate := 100 } := by
  simp [collectUsageMetrics, exCurrent31, getCloudwatchMetric]

lemma collect_exCurrent10 : collectUsageMetrics exCurrent10 =
    { total_invocations := 10, total_errors := 0, total_input_tokens := 0,
      total_output_tokens := 0, avg_duration := 0, success_rate := 100 } := by
  simp [collectUsageMetrics, exCurrent10, getCloudwatchMetric]

lemma collect_exCurrentLowErr : collectUsageMetrics exCurrentLowErr =
    { total_invocations := 50, total_errors := 1, total_input_tokens := 0,
      total_output_tokens := 0, avg_duration := 0, success_rate := 98 } := by
  simp [collectUsageMetrics, exCurrentLowErr, getCloudwatchMetric]
  norm_num

lemma baselineInvocations_exWindows10 :
    baselineInvocations exWindows10 = List.replicate 24 (10 : ℝ) := by
  simp [baselineInvocations, exWindows10, List.map_replicate, collect_w10e0]

lemma usageThreshold_exWindows10 (m : ℝ) : usageThreshold exWindows10 m = 10 := by
  rw [usageThreshold, baselineInvocations_exWindows10,
    listMean_replicate 24 10 (by norm_num), sampleStdev_replicate]
  ring

/-! Theorems about the claims. -/

/-- C2: whenever the baseline holds fewer than 24 hourly windows,
`detect_anomalies` returns the empty anomaly list, for every current
window and every threshold multiplier. -/
theorem c2_short_baseline_no_anomalies (windows : List WindowFetch)
    (current : WindowFetch) (m : ℝ) (h : windows.length < 24) :
    detectAnomalies windows current m = [] := by
  have hl : (baselineInvocations windows).length < 24 := by
    simpa [baselineInvocations] using h
  simp [detectAnomalies, hl]

/-- C2 witness: the empty baseline has fewer than 24 windows and detection
on it returns no anomalies. -/
theorem c2_short_baseline_no_anomalies_witness :
    ([] : List WindowFetch).length < 24 ∧ detectAnomalies [] emptyWindow 2 = [] :=
  ⟨by simp, c2_short_baseline_no_anomalies [] emptyWindow 2 (by simp)⟩

/-- C8: detection is deterministic on its inputs: on the same fetched data
and multiplier, two runs return identical anomaly lists. -/
theorem c8_detect_deterministic (windows : List WindowFetch)
    (current : WindowFetch) (m : ℝ) :
    detectAnomalies windows current m = detectAnomalies windows current m := rfl

/-- C9: `send_alert` returns `False` without publishing when no topic ARN
is configured, `False` when the publish raises, `True` exactly on a
successful publish; and the anomaly count that `lambda_handler` reports is
the same whatever the publish outcome. -/
theorem c9_send_alert_contract :
    (∀ publish, sendAlert none publish = (false, 0)) ∧
    (∀ arn : String, sendAlert (some arn) PublishOutcome.ok = (true, 1)) ∧
    (∀ arn : String, sendAlert (some arn) PublishOutcome.error = (false, 1)) ∧
    (∀ (anomalies : List Anomaly) (arn : Option String) (p q : PublishOutcome),
      (lambdaAlertStep anomalies arn p).2 = (lambdaAlertStep anomalies arn q).2) :=
  ⟨fun _ => rfl, fun _ => rfl, fun _ => rfl, fun _ _ _ _ => rfl⟩

/-- C10: one run returns at most two anomalies, at most one per type, and
every returned anomaly has severity "medium" or "high". -/
theorem c10_result_shape (windows : List WindowFetch) (current : WindowFetch)
    (m : ℝ) :
    (detectAnomalies windows current m).length ≤ 2 ∧
    ((detectAnomalies windows current m).countP (fun a => a.type == "high_usage")) ≤ 1 ∧
    ((detectAnomalies windows current m).countP (fun a => a.type == "high_error_rate")) ≤ 1 ∧
    ∀ a ∈ detectAnomalies windows current m,
      a.severity = "medium" ∨ a.severity = "high" := by
  unfold detectAnomalies usageAnomalies errorAnomalies
  split_ifs <;> simp_all [List.countP_cons]

/-- C5: when total invocations are exactly 0, `collect_usage_metrics`
reports `success_rate = 0`, and `detect_anomalies` skips the error-rate
check entirely (the error-rate branch contributes nothing). -/
theorem c5_zero_invocations_short_circuit :
    (∀ w : WindowFetch, (collectUsageMetrics w).total_invocations = 0 →
      (collectUsageMetrics w).success_rate = 0) ∧
    (∀ (windows : List WindowFetch) (current : WindowFetch) (m : ℝ),
      (collectUsageMetrics current).total_invocations = 0 →
      errorAnomalies windows (collectUsageMetrics current) m = []) ∧
    (∀ (windows : List WindowFetch) (current : WindowFetch) (m : ℝ),
      (collectUsageMetrics current).total_invocations = 0 →
      ∀ a ∈ detectAnomalies windows current m, a.type ≠ "high_error_rate") := by
  have hsucc : ∀ w : WindowFetch, (collectUsageMetrics w).total_invocations = 0 →
      (collectUsageMetrics w).success_rate = 0 := by
    intro w h
    have h' : (getCloudwatchMetric w.invocations).sum = 0 := by
      simpa [collectUsageMetrics] using h
    simp [collectUsageMetrics, h']
  have herr : ∀ (windows : List WindowFetch) (current : WindowFetch) (m : ℝ),
      (collectUsageMetrics current).total_invocations = 0 →
      errorAnomalies windows (collectUsageMetrics current) m = [] := by
    intro windows current m h
    rw [errorAnomalies, if_neg]
    rw [h]
    exact lt_irrefl 0
  refine ⟨hsucc, herr, ?_⟩
  intro windows current m h a ha
  rw [detectAnomalies] at ha
  split_ifs at ha with hlt
  · simp at ha
  · rw [herr windows current m h] at ha
    simp only [List.append_nil] at ha
    rw [usageAnomalies] at ha
    split_ifs at ha <;> simp_all

/-- C5 witness: an all-empty window has 0 total invocations, its success
rate is reported as 0, and the error-rate branch yields nothing. -/
theorem c5_zero_invocations_short_circuit_witness :
    (collectUsageMetrics emptyWindow).total_invocations = 0 ∧
    (collectUsageMetrics emptyWindow).success_rate = 0 ∧
    errorAnomalies [] (collectUsageMetrics emptyWindow) 2 = [] := by
  have h0 : (collectUsageMetrics emptyWindow).total_invocations = 0 := by
    simp [collectUsageMetrics, emptyWindow, getCloudwatchMetric]
  exact ⟨h0, c5_zero_invocations_short_circuit.1 emptyWindow h0,
    c5_zero_invocations_short_circuit.2.1 [] emptyWindow 2 h0⟩

/-- C3: a `high_error_rate` anomaly is in the result only when the current
error rate exceeds both the statistical threshold and the absolute 5%
floor; with a rate at most 5 no such anomaly is emitted. -/
theorem c3_error_anomaly_needs_both (windows : List WindowFetch)
    (current : WindowFetch) (m : ℝ) :
    (∀ a ∈ detectAnomalies windows current m, a.type = "high_error_rate" →
      currentErrorRate (collectUsageMetrics current) > errorThreshold windows m ∧
      currentErrorRate (collectUsageMetrics current) > 5) ∧
    (currentErrorRate (collectUsageMetrics current) ≤ 5 →
      ∀ a ∈ detectAnomalies windows current m, a.type ≠ "high_error_rate") := by
  unfold detectAnomalies usageAnomalies errorAnomalies
  split_ifs <;> simp_all

/-- C3 witness: a 2% current error rate over the quiet baseline is below
the 5% floor, so no `high_error_rate` anomaly is emitted even though 2
exceeds the statistical threshold 0. -/
theorem c3_error_anomaly_needs_both_witness :
    currentErrorRate (collectUsageMetrics exCurrentLowErr) ≤ 5 ∧
    errorThreshold exWindows 2 = 0 ∧
    ∀ a ∈ detectAnomalies exWindows exCurrentLowErr 2,
      a.type ≠ "high_error_rate" := by
  have hrate : currentErrorRate (collectUsageMetrics exCurrentLowErr) ≤ 5 := by
    rw [collect_exCurrentLowErr, currentErrorRate]
    norm_num
  exact ⟨hrate, errorThreshold_exWindows 2,
    (c3_error_anomaly_needs_both exWindows exCurrentLowErr 2).2 hrate⟩

/-- C4: over a baseline of at least 24 windows, a `high_usage` anomaly is
emitted iff the current invocations strictly exceed
`mean + multiplier * stdev`, and its severity is "high" exactly when they
exceed 1.5 times that threshold, "medium" otherwise. -/
theorem c4_high_usage_iff (windows : List WindowFetch) (current : WindowFetch)
    (m : ℝ) (h : 24 ≤ windows.length) :
    ((∃ a ∈ detectAnomalies windows current m, a.type = "high_usage") ↔
      (collectUsageMetrics current).total_invocations > usageThreshold windows m) ∧
    (∀ a ∈ detectAnomalies windows current m, a.type = "high_usage" →
      a.severity = if (collectUsageMetrics current).total_invocations >
        usageThreshold windows m * 1.5 then "high" else "medium") := by
  have hl : ¬ (baselineInvocations windows).length < 24 := by
    simp only [baselineInvocations, List.length_map]
    omega
  unfold detectAnomalies usageAnomalies errorAnomalies
  split_ifs <;> simp_all

/-- C4 witness: over the `[10]*24` baseline with multiplier 2 the threshold
is 10; current 31 yields a `high_usage` anomaly of severity "high"
(31 > 15), while current 10 yields none (10 is not > 10). -/
theorem c4_high_usage_iff_witness :
    (∃ a ∈ detectAnomalies exWindows10 exCurrent31 2, a.type = "high_usage") ∧
    (∀ a ∈ detectAnomalies exWindows10 exCurrent31 2, a.type = "high_usage" →
      a.severity = "high") ∧
    ¬ (∃ a ∈ detectAnomalies exWindows10 exCurrent10 2, a.type = "high_usage") := by
  have h24 : (24 : ℕ) ≤ exWindows10.length := by simp [exWindows10]
  have h1 := c4_high_usage_iff exWindows10 exCurrent31 2 h24
  have h2 := c4_high_usage_iff exWindows10 exCurrent10 2 h24
  refine ⟨h1.1.mpr ?_, ?_, ?_⟩
  · rw [collect_exCurrent31, usageThreshold_exWindows10]
    norm_num
  · intro a ha hty
    have hsev := h1.2 a ha hty
    rw [collect_exCurrent31, usageThreshold_exWindows10] at hsev
    rw [hsev, if_pos (by norm_num)]
  · intro hex
    have := h2.1.mp hex
    rw [collect_exCurrent10, usageThreshold_exWindows10] at this
    norm_num at this

/-! Concrete evaluations of whole detection runs. -/

lemma collect_exCurrentBad : collectUsageMetrics exCurrentBad =
    { total_invocations := 50, total_errors := 25, total_input_tokens := 0,
      total_output_tokens := 0, avg_duration := 0, success_rate := 50 } := by
  simp [collectUsageMetrics, exCurrentBad, getCloudwatchMetric]
  norm_num

lemma collect_exCurrentQuiet : collectUsageMetrics exCurrentQuiet =
    { total_invocations := 50, total_errors := 0, total_input_tokens := 0,
      total_output_tokens := 0, avg_duration := 0, success_rate := 100 } := by
  simp [collectUsageMetrics, exCurrentQuiet, getCloudwatchMetric]

lemma exWindows_not_short : ¬ (baselineInvocations exWindows).length < 24 := by
  rw [baselineInvocations_exWindows]
  simp

lemma detect_exBad :
    detectAnomalies exWindows exCurrentBad 2 =
      [{ type := "high_error_rate", current_value := 50, threshold := 0,
         baseline_mean := 0, severity := "high" }] := by
  have hrate : currentErrorRate (collectUsageMetrics exCurrentBad) = 50 := by
    rw [collect_exCurrentBad, currentErrorRate]
    norm_num
  have husage : usageAnomalies exWindows (collectUsageMetrics exCurrentBad) 2 = [] := by
    rw [usageAnomalies, if_neg]
    rw [collect_exCurrentBad, usageThreshold_exWindows]
    norm_num
  have hpos : (collectUsageMetrics exCurrentBad).total_invocations > 0 := by
    rw [collect_exCurrentBad]
    norm_num
  have hnonempty : errorRateBaseline exWindows ≠ [] := by
    rw [errorRateBaseline_exWindows]
    simp
  have hcond : currentErrorRate (collectUsageMetrics exCurrentBad) >
      errorThreshold exWindows 2 ∧
      currentErrorRate (collectUsageMetrics exCurrentBad) > 5 := by
    rw [hrate, errorThreshold_exWindows]
    norm_num
  rw [detectAnomalies, if_neg exWindows_not_short, husage, List.nil_append]
  rw [errorAnomalies, if_pos hpos, if_pos hnonempty, if_pos hcond]
  rw [hrate, errorThreshold_exWindows, errorRateBaseline_exWindows,
    listMean_replicate 23 0 (by norm_num)]
  rw [if_pos (by norm_num : (50 : ℝ) > 0 * 1.5)]

lemma detect_exQuiet : detectAnomalies exWindows exCurrentQuiet 2 = [] := by
  have hrate : currentErrorRate (collectUsageMetrics exCurrentQuiet) = 0 := by
    rw [collect_exCurrentQuiet, currentErrorRate]
    norm_num
  have husage : usageAnomalies exWindows (collectUsageMetrics exCurrentQuiet) 2 = [] := by
    rw [usageAnomalies, if_neg]
    rw [collect_exCurrentQuiet, usageThreshold_exWindows]
    norm_num
  have herr : errorAnomalies exWindows (collectUsageMetrics exCurrentQuiet) 2 = [] := by
    rw [errorAnomalies]
    split_ifs with h1 h2 h3
    · exfalso
      rw [hrate] at h3
      have := h3.2
      norm_num at this
    · rfl
    · rfl
    · rfl
  rw [detectAnomalies, if_neg exWindows_not_short, husage, herr]
  rfl

/-- C1 counterexample: a run over 24 quiet hours with a 50% current error
rate emits a `high_error_rate` anomaly that was judged against an
error-rate baseline holding only 23 samples, fewer than 24. -/
theorem c1_counterexample :
    (errorRateBaseline exWindows).length = 23 ∧
    (∃ a ∈ detectAnomalies exWindows exCurrentBad 2,
      a.type = "high_error_rate") := by
  constructor
  · rw [errorRateBaseline_exWindows]
    simp
  · rw [detect_exBad]
    simp

/-- C1 (amended): any emitted anomaly requires the invocation-count
baseline (the series the 24-sample gate inspects) to hold at least 24
samples; the `high_error_rate` anomaly is additionally judged against the
filtered error-rate baseline, which need only be non-empty. -/
theorem c1_amended (windows : List WindowFetch) (current : WindowFetch)
    (m : ℝ) (h : detectAnomalies windows current m ≠ []) :
    24 ≤ windows.length ∧
    ((∃ a ∈ detectAnomalies windows current m, a.type = "high_error_rate") →
      errorRateBaseline windows ≠ []) := by
  constructor
  · by_contra hlt
    push_neg at hlt
    have hl : (baselineInvocations windows).length < 24 := by
      simpa [baselineInvocations] using hlt
    exact h (by simp [detectAnomalies, hl])
  · rintro ⟨a, ha, hty⟩ hempty
    have herr : errorAnomalies windows (collectUsageMetrics current) m = [] := by
      rw [errorAnomalies]
      split_ifs <;> simp_all
    rw [detectAnomalies] at ha
    split_ifs at ha
    · simp at ha
    · rw [herr, List.append_nil, usageAnomalies] at ha
      split_ifs at ha <;> simp_all

/-- C1 amended witness: the bad run's output is non-empty; its invocation
baseline has 24 windows and its error-rate baseline is non-empty. -/
theorem c1_amended_witness :
    24 ≤ exWindows.length ∧
    ((∃ a ∈ detectAnomalies exWindows exCurrentBad 2,
        a.type = "high_error_rate") →
      errorRateBaseline exWindows ≠ []) :=
  c1_amended exWindows exCurrentBad 2 (by rw [detect_exBad]; simp)

/-- C6 counterexample: a run over the empty (insufficient) baseline and a
run over a 24-window baseline that finds no anomalies return the very
same empty list, so the two outcomes are not distinguishable at the
interface of `detect_anomalies`. -/
theorem c6_counterexample :
    ([] : List WindowFetch).length < 24 ∧
    24 ≤ exWindows.length ∧
    detectAnomalies [] exCurrentQuiet 2 = detectAnomalies exWindows exCurrentQuiet 2 := by
  refine ⟨by simp, by simp [exWindows], ?_⟩
  rw [detect_exQuiet]
  simp [detectAnomalies, baselineInvocations]

/-- C6 (amended): the insufficient-baseline outcome is not distinguishable
at the interface: a short-baseline run returns the same empty list as any
run that finds no anomalies; the distinction exists only as a log warning,
outside the return value. -/
theorem c6_amended (w : List WindowFetch) (c : WindowFetch) (m : ℝ)
    (w' : List WindowFetch) (c' : WindowFetch) (m' : ℝ)
    (h : w.length < 24) (h' : detectAnomalies w' c' m' = []) :
    detectAnomalies w c m = detectAnomalies w' c' m' := by
  have hl : (baselineInvocations w).length < 24 := by
    simpa [baselineInvocations] using h
  rw [h']
  simp [detectAnomalies, hl]

/-- C6 amended witness: the empty-baseline run equals the quiet 24-window
run, both being the empty list. -/
theorem c6_amended_witness :
    detectAnomalies [] exCurrentQuiet 2 = detectAnomalies exWindows exCurrentQuiet 2 :=
  c6_amended [] exCurrentQuiet 2 exWindows exCurrentQuiet 2 (by simp) detect_exQuiet

lemma collect_failWindow :
    (collectUsageMetrics failWindow).total_invocations = 0 := by
  simp [collectUsageMetrics, failWindow, getCloudwatchMetric]

/-- C7 counterexample: in a run whose last window's Invocations fetch
raised, the invocation-count baseline still holds one sample per window —
the failed window is recorded as a 0-valued sample, not dropped, so the
detector is not left with fewer baseline points. -/
theorem c7_counterexample :
    failWindow.invocations = FetchResult.error ∧
    failWindow ∈ exWindowsFail ∧
    (baselineInvocations exWindowsFail).length = exWindowsFail.length ∧
    baselineInvocations exWindowsFail = List.replicate 23 (100 : ℝ) ++ [0] := by
  refine ⟨rfl, ?_, ?_, ?_⟩
  · simp [exWindowsFail]
  · simp [baselineInvocations]
  · simp [baselineInvocations, exWindowsFail, List.map_replicate,
      collect_w100e0, collect_failWindow]

/-- C7 (amended): a fetch failure is caught at the boundary and mapped to
empty data; a window whose Invocations fetch failed contributes a 0-valued
sample to the invocation-count baseline (which always has one sample per
window), while any zero-invocation window is dropped from the error-rate
baseline; detection itself is total, so the worst outcome is an empty
list. -/
theorem c7_amended :
    getCloudwatchMetric FetchResult.error = [] ∧
    (∀ w : WindowFetch, w.invocations = FetchResult.error →
      (collectUsageMetrics w).total_invocations = 0) ∧
    (∀ windows : List WindowFetch,
      (baselineInvocations windows).length = windows.length) ∧
    (∀ (w : WindowFetch) (windows : List WindowFetch),
      (collectUsageMetrics w).total_invocations = 0 →
      errorRateBaseline (w :: windows) = errorRateBaseline windows) := by
  refine ⟨rfl, ?_, ?_, ?_⟩
  · intro w hw
    simp [collectUsageMetrics, hw, getCloudwatchMetric]
  · intro windows
    simp [baselineInvocations]
  · intro w windows h
    cases windows with
    | nil => rfl
    | cons b bs =>
        rw [errorRateBaseline, errorRateBaseline,
          List.dropLast_cons_of_ne_nil (by simp), List.filterMap_cons]
        simp [h]

/-- C7 amended witness: the concrete failed window yields 0 invocations
and is skipped by the error-rate baseline when prepended to the quiet
run. -/
theorem c7_amended_witness :
    (collectUsageMetrics failWindow).total_invocations = 0 ∧
    errorRateBaseline (failWindow :: exWindows) = errorRateBaseline exWindows :=
  ⟨c7_amended.2.1 failWindow rfl,
   c7_amended.2.2.2 failWindow exWindows (c7_amended.2.1 failWindow rfl)⟩

/-- C10 witness: the bad run returns at most two anomalies and the anomaly
it does return has severity "medium" or "high". -/
theorem c10_result_shape_witness :
    (detectAnomalies exWindows exCurrentBad 2).length ≤ 2 ∧
    (({ type := "high_error_rate", current_value := 50, threshold := 0,
        baseline_mean := 0, severity := "high" } : Anomaly).severity = "medium" ∨
     ({ type := "high_error_rate", current_value := 50, threshold := 0,
        baseline_mean := 0, severity := "high" } : Anomaly).severity = "high") :=
  ⟨(c10_result_shape exWindows exCurrentBad 2).1,
   (c10_result_shape exWindows exCurrentBad 2).2.2.2 _ (by rw [detect_exBad]; simp)⟩

end BedrockMonitor
